import Mathlib

/-!
Shallow embedding of `src/main.py` (a FastAPI relay between an S3 object
store and the Dromo headless import API), for checking the repository's
specification.

Modelling conventions:
* JSON values are `JVal`; a parsed JSON object is an association list
  `List (String × JVal)` (the parsed dicts here have no duplicate keys, so
  first-match lookup coincides with Python dict lookup).
* Python truthiness (`if not x`) is `truthy` / `truthyOpt` (a `None` from
  `dict.get` is the `Option.none` case).
* Module-level configuration read from the environment (`os.getenv`, which
  yields `None` when unset) is a `Config` of `Option String` fields.
* Every external effect (boto3 S3 calls, httpx calls) is mediated by an
  `Env` that fixes the outcome of each call, and each handler returns,
  besides its HTTP result, the trace (`List ExtCall`) of external calls it
  performed, in order.  `httpx.Response.raise_for_status` raises exactly
  when the status code is not 2xx (`isSuccess`); a transport-level failure
  (`httpx.RequestError`, not an `HTTPStatusError`) is the `netError` case.
* FastAPI's `HTTPException` is a subclass of `Exception`, so one raised
  inside the `try` of `import_file` is caught by the trailing
  `except Exception` and re-wrapped; `str` of a starlette `HTTPException`
  is `"{status_code}: {detail}"`, modelled by `httpExcStr`.
* The create-import response body and the presigned-URL response body are
  modelled as JSON objects (the handlers immediately use them as dicts;
  no claim concerns a non-object body there).
* `repr`/`str` of Python values reaching messages is modelled by `pyRepr` /
  `pyStr`; string repr uses single quotes (the parsed keys and values in
  scope contain no characters Python would escape).
-/

namespace DromoDemo

/-- A single-quote character, used by Python `repr` of strings. -/
def sq : String := "\x27"

/-- JSON values, as produced by `response.json()` / the webhook body. -/
inductive JVal where
  | jnull
  | jbool (b : Bool)
  | jnum (n : Int)
  | jstr (s : String)
  | jarr (elems : List JVal)
  | jobj (fields : List (String × JVal))
deriving Repr

/-- Python `x == s` for a parsed JSON value `x` and a string literal `s`:
true exactly when `x` is that string (`==` across types is `False`). -/
def jvalIsStr (v : JVal) (s : String) : Bool :=
  match v with
  | .jstr t => t == s
  | _ => false

/-- Python truthiness of a JSON value (`bool(x)`). -/
def truthy : JVal → Bool
  | .jnull => false
  | .jbool b => b
  | .jnum n => n != 0
  | .jstr s => s != ""
  | .jarr elems => !elems.isEmpty
  | .jobj fields => !fields.isEmpty

/-- Python truthiness where `none` stands for Python `None` (e.g. the
default of `dict.get`). -/
def truthyOpt : Option JVal → Bool
  | none => false
  | some v => truthy v

/-- Dict lookup on a parsed JSON object (`d.get(k)` / `d[k]` / `k in d`). -/
def jlookup : List (String × JVal) → String → Option JVal
  | [], _ => none
  | (k, v) :: rest, key => if k == key then some v else jlookup rest key

/-- Python type name of a JSON value, as it appears in error messages. -/
def pyTypeName : JVal → String
  | .jnull => "NoneType"
  | .jbool _ => "bool"
  | .jnum _ => "int"
  | .jstr _ => "str"
  | .jarr _ => "list"
  | .jobj _ => "dict"

/-- Python `repr` of a string: single-quoted (keys/values in scope need no
escaping, which Python would only add for quotes, backslashes or control
characters). -/
def pyReprStr (s : String) : String := sq ++ s ++ sq

mutual

/-- Python `repr` of a parsed JSON value (`None`, `True`, `'s'`, lists,
dicts), as interpolated into f-string error messages. -/
def pyRepr : JVal → String
  | .jnull => "None"
  | .jbool true => "True"
  | .jbool false => "False"
  | .jnum n => toString n
  | .jstr s => pyReprStr s
  | .jarr elems => "[" ++ pyReprElems elems ++ "]"
  | .jobj fields => "\x7b" ++ pyReprFields fields ++ "\x7d"

/-- Comma-separated `repr`s of list elements. -/
def pyReprElems : List JVal → String
  | [] => ""
  | [v] => pyRepr v
  | v :: rest => pyRepr v ++ ", " ++ pyReprElems rest

/-- Comma-separated `repr`s of dict entries. -/
def pyReprFields : List (String × JVal) → String
  | [] => ""
  | [(k, v)] => pyReprStr k ++ ": " ++ pyRepr v
  | (k, v) :: rest => pyReprStr k ++ ": " ++ pyRepr v ++ ", " ++ pyReprFields rest

end

/-- Python `str` of a parsed JSON value (as in f-string interpolation):
a string interpolates as itself, everything else as its `repr`. -/
def pyStr : JVal → String
  | .jstr s => s
  | v => pyRepr v

/-- Python `repr` of `list(d.keys())` for a parsed JSON object `d`. -/
def pyReprKeys (keys : List String) : String :=
  "[" ++ String.intercalate ", " (keys.map pyReprStr) ++ "]"

/-- Module-level configuration of `main.py`, read once via `os.getenv`
(which returns `None` for an unset variable). -/
structure Config where
  DROMO_LICENSE_KEY : Option String
  DROMO_SCHEMA_ID : Option String
  AWS_ACCESS_KEY : Option String
  AWS_SECRET_KEY : Option String
  AWS_S3_BUCKET : Option String
deriving Repr, DecidableEq

/-- Python truthiness of an `os.getenv` result (`None` and `""` are falsy). -/
def strTruthy : Option String → Bool
  | none => false
  | some s => s != ""

/-- `httpx` treats a response as successful exactly when its status code is
2xx; `raise_for_status` raises `HTTPStatusError` otherwise. -/
def isSuccess (status : Nat) : Bool := 200 ≤ status && status < 300

/-- `str` of a starlette `HTTPException` (its `__str__` is
`f"{status_code}: {detail}"`), as seen by the re-wrapping
`except Exception` handler of `import_file`. -/
def httpExcStr (status : Nat) (detail : String) : String :=
  toString status ++ ": " ++ detail

/-- Outcome of `s3_client.get_object(...)['Body'].read()`. -/
inductive S3GetOutcome where
  | ok (body : List Nat)
  | noCredentials
  | botoError (msg : String)
deriving Repr, DecidableEq

/-- Outcome of `s3_client.put_object(...)`. -/
inductive S3PutOutcome where
  | ok
  | err (msg : String)
deriving Repr, DecidableEq

/-- Outcome of an httpx call whose body the handler parses as a JSON
object: a response (status code, raw text, parsed object) or a
transport-level error. -/
inductive HttpJsonOutcome where
  | resp (status : Nat) (text : String) (json : List (String × JVal))
  | netError (msg : String)
deriving Repr

/-- Outcome of an httpx call whose body is used as raw text/bytes. -/
inductive HttpBytesOutcome where
  | resp (status : Nat) (text : String) (content : List Nat)
  | netError (msg : String)
deriving Repr, DecidableEq

/-- One external call performed by a handler, with the arguments it was
given (the handlers' observable effects). -/
inductive ExtCall where
  | s3Get (bucket : Option String) (key : String)
  | dromoCreate (schemaId : Option String) (filename : String)
  | dromoUpload (target : JVal) (content : List Nat)
  | dromoPresign (importId : String)
  | httpDownload (url : JVal)
  | s3Put (bucket : Option String) (key : String) (body : List Nat)
      (contentType : String)
deriving Repr

/-- Whether an external call is an object-store write. -/
def ExtCall.toS3Put : ExtCall → Bool
  | .s3Put _ _ _ _ => true
  | _ => false

/-- The environment: the outcome of each external call the program can
make, as a function of the arguments the program passes. -/
structure Env where
  s3Get : Option String → String → S3GetOutcome
  createImport : Option String → String → HttpJsonOutcome
  uploadPut : JVal → List Nat → HttpBytesOutcome
  presign : String → HttpJsonOutcome
  download : JVal → HttpBytesOutcome
  s3Put : Option String → String → List Nat → String → S3PutOutcome

/-- An HTTP handler result: a JSON body with status 200, or an
`HTTPException` carrying a status code and a `detail` message. -/
inductive HResp where
  | ok (body : List (String × JVal))
  | err (status : Nat) (detail : String)
deriving Repr

/-- The request model `S3FileImportRequest` of `POST /import-file`. -/
structure S3FileImportRequest where
  s3_key : String
  filename : String
deriving Repr, DecidableEq

/-- The candidate keys probed for the upload URL in the create-import
response, in source order (`main.py` line 128). -/
def uploadUrlKeys : List String :=
  ["upload_url", "upload", "uploadUrl", "file_upload_url"]

/-- The probing loop of `main.py` lines 127–131: `upload_url` starts as
`None`; the first candidate key present in the dict sets it (to whatever
value, possibly falsy) and breaks. -/
def probeUploadUrl (import_data : List (String × JVal)) : Option JVal :=
  match uploadUrlKeys.find? (fun k => (jlookup import_data k).isSome) with
  | none => none
  | some k => jlookup import_data k

/-- `GET /` (`main.py` lines 62–67). -/
def root : List (String × JVal) := [("message", .jstr "Hello World")]

/-- `GET /health` (`main.py` lines 254–259). -/
def health_check : List (String × JVal) := [("status", .jstr "healthy")]

/-- `POST /import-file` (`main.py` lines 70–164), returning the HTTP
result and the trace of external calls.  The inner `HTTPException`s of the
S3 step and the `ValueError`s are caught by the trailing
`except Exception` (line 160) and re-wrapped with prefix
`"Failed to start import: "`; an `httpx.HTTPStatusError` (line 152)
mirrors the upstream status code and text. -/
def import_file (cfg : Config) (env : Env) (request : S3FileImportRequest) :
    HResp × List ExtCall :=
  if !strTruthy cfg.DROMO_LICENSE_KEY then
    (.err 500 "Dromo license key not configured", [])
  else if !(strTruthy cfg.AWS_ACCESS_KEY && strTruthy cfg.AWS_SECRET_KEY
      && strTruthy cfg.AWS_S3_BUCKET) then
    (.err 500 "AWS credentials or S3 bucket not configured", [])
  else
    let tr0 := [ExtCall.s3Get cfg.AWS_S3_BUCKET request.s3_key]
    match env.s3Get cfg.AWS_S3_BUCKET request.s3_key with
    | .noCredentials =>
        (.err 500 ("Failed to start import: "
          ++ httpExcStr 500 "AWS credentials not found"), tr0)
    | .botoError m =>
        (.err 500 ("Failed to start import: "
          ++ httpExcStr 500 ("Error reading from S3: " ++ m)), tr0)
    | .ok file_content =>
      let tr1 := tr0 ++ [ExtCall.dromoCreate cfg.DROMO_SCHEMA_ID request.filename]
      match env.createImport cfg.DROMO_SCHEMA_ID request.filename with
      | .netError m => (.err 500 ("Failed to start import: " ++ m), tr1)
      | .resp st text import_data =>
        if !isSuccess st then (.err st ("Dromo API error: " ++ text), tr1)
        else
          match jlookup import_data "id" with
          | none =>
              (.err 500 ("Failed to start import: Missing " ++ sq ++ "id" ++ sq
                ++ " in Dromo response: " ++ pyRepr (.jobj import_data)), tr1)
          | some import_id =>
            let upload_url := probeUploadUrl import_data
            if !truthyOpt upload_url then
              (.err 500 ("Failed to start import: No upload URL found in Dromo"
                ++ " response. Available keys: "
                ++ pyReprKeys (import_data.map Prod.fst)), tr1)
            else
              let u := upload_url.getD .jnull
              let tr2 := tr1 ++ [ExtCall.dromoUpload u file_content]
              match env.uploadPut u file_content with
              | .netError m => (.err 500 ("Failed to start import: " ++ m), tr2)
              | .resp st2 text2 _ =>
                if !isSuccess st2 then
                  (.err st2 ("Dromo API error: " ++ text2), tr2)
                else
                  (.ok [("import_id", import_id),
                        ("status", .jstr "PENDING"),
                        ("message", .jstr "Import started successfully")], tr2)

/-- An exception escaping `download_and_save_processed_data`. -/
inductive PyErr where
  | httpStatusError (status : Nat) (text : String)
  | netError (msg : String)
  | valueError (msg : String)
  | s3Error (msg : String)
deriving Repr, DecidableEq

/-- `download_and_save_processed_data` (`main.py` lines 167–210): fetch the
presigned URL, download the artifact, write it to the object store at
`processed/{import_id}.csv` with content type `text/csv`; any exception is
logged and re-raised. -/
def download_and_save_processed_data (cfg : Config) (env : Env)
    (import_id : JVal) : Except PyErr String × List ExtCall :=
  let idStr := pyStr import_id
  let tr0 := [ExtCall.dromoPresign idStr]
  match env.presign idStr with
  | .netError m => (.error (.netError m), tr0)
  | .resp st text presigned_data =>
    if !isSuccess st then (.error (.httpStatusError st text), tr0)
    else
      let download_url := jlookup presigned_data "presigned_url"
      if !truthyOpt download_url then
        (.error (.valueError ("No presigned_url in response: "
          ++ pyRepr (.jobj presigned_data))), tr0)
      else
        let u := download_url.getD .jnull
        let tr1 := tr0 ++ [ExtCall.httpDownload u]
        match env.download u with
        | .netError m => (.error (.netError m), tr1)
        | .resp st2 text2 processed_data =>
          if !isSuccess st2 then (.error (.httpStatusError st2 text2), tr1)
          else
            let output_key := "processed/" ++ idStr ++ ".csv"
            let tr2 := tr1 ++ [ExtCall.s3Put cfg.AWS_S3_BUCKET output_key
              processed_data "text/csv"]
            match env.s3Put cfg.AWS_S3_BUCKET output_key processed_data
                "text/csv" with
            | .err m => (.error (.s3Error m), tr2)
            | .ok => (.ok output_key, tr2)

/-- `POST /webhook` (`main.py` lines 213–250).  The body is a JSON object;
`data = webhook_data.get("data", {})` then `data.get(...)` raises
`AttributeError` when `data` is not a dict, which the trailing
`except Exception` turns into a 500.  A falsy `data.get("id")` is a 400.
On status `"SUCCESSFUL"` the download helper runs and any exception from
it is swallowed (lines 233–237); the acknowledgement is returned in every
non-error case. -/
def webhook_handler (cfg : Config) (env : Env)
    (webhook_data : List (String × JVal)) : HResp × List ExtCall :=
  let data : JVal := (jlookup webhook_data "data").getD (.jobj [])
  match data with
  | .jobj fields =>
    let import_id : JVal := (jlookup fields "id").getD .jnull
    let status : JVal := (jlookup fields "status").getD .jnull
    if !truthy import_id then
      (.err 400 "Missing import_id in webhook data.data.id", [])
    else
      let ack : HResp := .ok [("message", .jstr "Webhook processed successfully"),
        ("import_id", import_id), ("status", status)]
      if jvalIsStr status "SUCCESSFUL" then
        let r := download_and_save_processed_data cfg env import_id
        (ack, r.2)
      else
        (ack, [])
  | other =>
      (.err 500 ("Failed to process webhook: " ++ sq ++ pyTypeName other ++ sq
        ++ " object has no attribute " ++ sq ++ "get" ++ sq), [])

/-! ## Concrete configurations and environments (used to instantiate the
theorems at closed inputs) -/

/-- A fully configured `Config` (all environment variables set, non-empty). -/
def cfgDemo : Config :=
  ⟨some "LK", some "SCH", some "AK", some "SK", some "BKT"⟩

/-- An environment where every external call succeeds: the S3 read returns
bytes `[1, 2, 3]`, the create-import call returns id `"job1"` and an
`upload_url`, the presigned-URL fetch and download succeed, the write
succeeds. -/
def envDemo : Env where
  s3Get := fun _ _ => .ok [1, 2, 3]
  createImport := fun _ _ => .resp 201 "created"
    [("id", .jstr "job1"), ("upload_url", .jstr "https://up.example/u")]
  uploadPut := fun _ _ => .resp 200 "ok" []
  presign := fun _ => .resp 200 "ok"
    [("presigned_url", .jstr "https://dl.example/d")]
  download := fun _ => .resp 200 "ok" [9, 8]
  s3Put := fun _ _ _ _ => .ok

/-- A `Config` whose license key is unset. -/
def cfgNoKey : Config :=
  ⟨none, some "SCH", some "AK", some "SK", some "BKT"⟩

/-- `envDemo`, but the S3 read fails with a boto error. -/
def envS3Fail : Env :=
  { envDemo with s3Get := fun _ _ => .botoError "key not found" }

/-- `envDemo`, but the create-import call answers 404. -/
def envCreate404 : Env :=
  { envDemo with createImport := fun _ _ => .resp 404 "not found" [] }

/-- `envDemo`, but the presigned-URL fetch fails at the transport level. -/
def envPresignFail : Env :=
  { envDemo with presign := fun _ => .netError "connection refused" }

/-- `envDemo`, but the create-import response holds an empty `upload_url`
and a usable `upload`. -/
def envFalsyProbe : Env :=
  { envDemo with
    createImport := fun _ _ => .resp 201 "created"
      [("id", .jstr "job1"), ("upload_url", .jstr ""),
       ("upload", .jstr "https://up.example/u")] }

/-! ## Theorems -/

/-- Claim C1: for every request whose object-store read succeeds, whose
create-import call succeeds with a response containing an id and whose
upload-target probe yields a usable (truthy) value, and whose payload
upload succeeds, `POST /import-file` returns the body with `import_id`
equal to the `id` field of the create-import response and `status`
`"PENDING"`. -/
theorem importFile_success_returns_create_id
    (cfg : Config) (env : Env) (req : S3FileImportRequest)
    (hlk : strTruthy cfg.DROMO_LICENSE_KEY = true)
    (hak : strTruthy cfg.AWS_ACCESS_KEY = true)
    (hsk : strTruthy cfg.AWS_SECRET_KEY = true)
    (hbk : strTruthy cfg.AWS_S3_BUCKET = true)
    (body : List Nat)
    (hs3 : env.s3Get cfg.AWS_S3_BUCKET req.s3_key = .ok body)
    (st : Nat) (text : String) (d : List (String × JVal))
    (hcr : env.createImport cfg.DROMO_SCHEMA_ID req.filename = .resp st text d)
    (hok : isSuccess st = true)
    (idv : JVal) (hid : jlookup d "id" = some idv)
    (u : JVal) (hu : probeUploadUrl d = some u) (hut : truthy u = true)
    (st2 : Nat) (text2 : String) (c2 : List Nat)
    (hup : env.uploadPut u body = .resp st2 text2 c2)
    (hok2 : isSuccess st2 = true) :
    (import_file cfg env req).1 =
      .ok [("import_id", idv), ("status", .jstr "PENDING"),
           ("message", .jstr "Import started successfully")] := by
  simp [import_file, hlk, hak, hsk, hbk, hs3, hcr, hok, hid, hu, truthyOpt,
    hut, hup, hok2]

/-- Witness for C1: the happy-path environment at a concrete request. -/
theorem importFile_success_returns_create_id_witness :
    (import_file cfgDemo envDemo ⟨"in.csv", "f.csv"⟩).1 =
      .ok [("import_id", .jstr "job1"), ("status", .jstr "PENDING"),
           ("message", .jstr "Import started successfully")] :=
  importFile_success_returns_create_id cfgDemo envDemo ⟨"in.csv", "f.csv"⟩
    rfl rfl rfl rfl [1, 2, 3] rfl 201 "created" _ rfl rfl
    (.jstr "job1") rfl (.jstr "https://up.example/u") rfl rfl
    200 "ok" [] rfl rfl

/-- Claim C2: for every webhook body of the form
`{"data": {"id": j, "status": "SUCCESSFUL"}}` where the result-pointer
fetch and the download succeed, `POST /webhook` performs exactly one
object-store write, to key `processed/{j}.csv` with content type
`text/csv` and body equal to the downloaded bytes, and returns the 200
acknowledgement with `import_id` `j` and `status` `"SUCCESSFUL"`. -/
theorem webhook_successful_writes_processed_csv
    (cfg : Config) (env : Env) (j : String) (hj : j ≠ "")
    (st : Nat) (text : String) (pd : List (String × JVal))
    (hpre : env.presign j = .resp st text pd) (hst : isSuccess st = true)
    (u : JVal) (hurl : jlookup pd "presigned_url" = some u)
    (hut : truthy u = true)
    (st2 : Nat) (text2 : String) (b : List Nat)
    (hdl : env.download u = .resp st2 text2 b) (hst2 : isSuccess st2 = true) :
    (webhook_handler cfg env
        [("data", .jobj [("id", .jstr j), ("status", .jstr "SUCCESSFUL")])]).2.filter
        ExtCall.toS3Put =
      [ExtCall.s3Put cfg.AWS_S3_BUCKET ("processed/" ++ j ++ ".csv") b
        "text/csv"] ∧
    (webhook_handler cfg env
        [("data", .jobj [("id", .jstr j), ("status", .jstr "SUCCESSFUL")])]).1 =
      .ok [("message", .jstr "Webhook processed successfully"),
           ("import_id", .jstr j), ("status", .jstr "SUCCESSFUL")] := by
  have htj : truthy (.jstr j) = true := by simp [truthy, hj]
  cases hput : env.s3Put cfg.AWS_S3_BUCKET ("processed/" ++ j ++ ".csv") b
      "text/csv" <;>
    simp [webhook_handler, jlookup, htj, jvalIsStr,
      download_and_save_processed_data, pyStr, hpre, hst, hurl, truthyOpt,
      hut, hdl, hst2, hput, ExtCall.toS3Put]

/-- Witness for C2: the happy-path environment at job id `"job1"`. -/
theorem webhook_successful_writes_processed_csv_witness :
    (webhook_handler cfgDemo envDemo
        [("data", .jobj [("id", .jstr "job1"),
          ("status", .jstr "SUCCESSFUL")])]).2.filter ExtCall.toS3Put =
      [ExtCall.s3Put (some "BKT") "processed/job1.csv" [9, 8] "text/csv"] ∧
    (webhook_handler cfgDemo envDemo
        [("data", .jobj [("id", .jstr "job1"),
          ("status", .jstr "SUCCESSFUL")])]).1 =
      .ok [("message", .jstr "Webhook processed successfully"),
           ("import_id", .jstr "job1"), ("status", .jstr "SUCCESSFUL")] :=
  webhook_successful_writes_processed_csv cfgDemo envDemo "job1"
    (by decide) 200 "ok" _ rfl rfl (.jstr "https://dl.example/d") rfl rfl
    200 "ok" [9, 8] rfl rfl

/-- Claim C4: for every webhook body with a truthy `data.id` and status
`"SUCCESSFUL"`, if the result handling (pointer fetch, download or
object-store write) fails, `POST /webhook` still returns the 200 success
acknowledgement: the failure is swallowed. -/
theorem webhook_download_failure_swallowed
    (cfg : Config) (env : Env) (wd : List (String × JVal))
    (fields : List (String × JVal))
    (hdata : (jlookup wd "data").getD (.jobj []) = .jobj fields)
    (idv : JVal) (hid : jlookup fields "id" = some idv)
    (hty : truthy idv = true)
    (hst : jlookup fields "status" = some (.jstr "SUCCESSFUL"))
    (e : PyErr)
    (_hfail : (download_and_save_processed_data cfg env idv).1 = .error e) :
    (webhook_handler cfg env wd).1 =
      .ok [("message", .jstr "Webhook processed successfully"),
           ("import_id", idv), ("status", .jstr "SUCCESSFUL")] := by
  simp [webhook_handler, hdata, hid, hty, hst, jvalIsStr]

/-- Witness for C4: an environment whose presigned-URL fetch fails at the
transport level still yields the 200 acknowledgement. -/
theorem webhook_download_failure_swallowed_witness :
    (webhook_handler cfgDemo envPresignFail
        [("data", .jobj [("id", .jstr "job1"),
          ("status", .jstr "SUCCESSFUL")])]).1 =
      .ok [("message", .jstr "Webhook processed successfully"),
           ("import_id", .jstr "job1"), ("status", .jstr "SUCCESSFUL")] :=
  webhook_download_failure_swallowed cfgDemo envPresignFail
    [("data", .jobj [("id", .jstr "job1"), ("status", .jstr "SUCCESSFUL")])]
    [("id", .jstr "job1"), ("status", .jstr "SUCCESSFUL")] rfl
    (.jstr "job1") rfl rfl rfl (.netError "connection refused") rfl

/-- Claim C3 counterexample: the webhook body `{"data": 5}` (whose
`data.id` is missing) makes `POST /webhook` return HTTP 500, not the
HTTP 400 the claim names as the only error case: `data.get("id")` on the
non-dict `5` raises `AttributeError`, which the trailing handler turns
into a 500. -/
theorem webhook_nonobject_data_gives_500 :
    webhook_handler cfgDemo envDemo [("data", .jnum 5)] =
      (.err 500 ("Failed to process webhook: " ++ sq ++ "int" ++ sq
        ++ " object has no attribute " ++ sq ++ "get" ++ sq), []) ∧
    (webhook_handler cfgDemo envDemo [("data", .jnum 5)]).1 ≠
      .err 400 "Missing import_id in webhook data.data.id" := by
  constructor
  · rfl
  · intro h
    simp [webhook_handler, jlookup] at h

/-- Claim C3 as amended: for every webhook body whose `data` field (an
absent one defaults to the empty object) is a JSON object, the handler
returns the 200 acknowledgement `{message, import_id, status}` when
`data.id` is present and truthy, and HTTP 400 when `data.id` is missing
or falsy — the only error case for object-shaped `data`; a body whose
`data` field is not a JSON object returns HTTP 500. -/
theorem webhook_ack_unless_bad_id_or_nonobject_data
    (cfg : Config) (env : Env) (wd : List (String × JVal)) :
    (∀ fields, (jlookup wd "data").getD (.jobj []) = .jobj fields →
      (truthyOpt (jlookup fields "id") = false →
        webhook_handler cfg env wd =
          (.err 400 "Missing import_id in webhook data.data.id", [])) ∧
      (∀ idv, jlookup fields "id" = some idv → truthy idv = true →
        (webhook_handler cfg env wd).1 =
          .ok [("message", .jstr "Webhook processed successfully"),
               ("import_id", idv),
               ("status", (jlookup fields "status").getD .jnull)])) ∧
    (∀ v, (jlookup wd "data").getD (.jobj []) = v →
      (∀ fields, v ≠ .jobj fields) →
      ∃ m, webhook_handler cfg env wd = (.err 500 m, [])) := by
  constructor
  · intro fields hdata
    constructor
    · intro hfalsy
      have : truthy ((jlookup fields "id").getD .jnull) = false := by
        cases h : jlookup fields "id" with
        | none => simp [truthy]
        | some v => simpa [truthyOpt, h] using hfalsy
      simp [webhook_handler, hdata, this]
    · intro idv hid hty
      by_cases hsucc :
          jvalIsStr ((jlookup fields "status").getD .jnull) "SUCCESSFUL" =
            true <;>
        simp [webhook_handler, hdata, hid, hty, hsucc]
  · intro v hdata hnotobj
    refine ⟨"Failed to process webhook: " ++ sq ++ pyTypeName v ++ sq
      ++ " object has no attribute " ++ sq ++ "get" ++ sq, ?_⟩
    cases v with
    | jobj fields => exact absurd rfl (hnotobj fields)
    | jnull => simp [webhook_handler, hdata]
    | jbool b => simp [webhook_handler, hdata]
    | jnum n => simp [webhook_handler, hdata]
    | jstr s => simp [webhook_handler, hdata]
    | jarr elems => simp [webhook_handler, hdata]

/-- Witness for the amended C3: a concrete body with a truthy id and an
unrecognized status gets the 200 acknowledgement. -/
theorem webhook_ack_unless_bad_id_or_nonobject_data_witness :
    (webhook_handler cfgDemo envDemo
        [("data", .jobj [("id", .jstr "j7"), ("status", .jstr "ODD")])]).1 =
      .ok [("message", .jstr "Webhook processed successfully"),
           ("import_id", .jstr "j7"), ("status", .jstr "ODD")] :=
  ((webhook_ack_unless_bad_id_or_nonobject_data cfgDemo envDemo
      [("data", .jobj [("id", .jstr "j7"), ("status", .jstr "ODD")])]).1
    [("id", .jstr "j7"), ("status", .jstr "ODD")] rfl).2
    (.jstr "j7") rfl rfl

/-- Claim C5: for every create-import response containing an id, the
handler probes the ordered candidate key list `uploadUrlKeys` and uses the
value of the first candidate key present (the upload call receives exactly
that value); if no candidate key is present, the request fails with a 500
whose message enumerates exactly the keys actually present in the
response. -/
theorem importFile_probes_first_key_or_enumerates_keys
    (cfg : Config) (env : Env) (req : S3FileImportRequest)
    (hlk : strTruthy cfg.DROMO_LICENSE_KEY = true)
    (hak : strTruthy cfg.AWS_ACCESS_KEY = true)
    (hsk : strTruthy cfg.AWS_SECRET_KEY = true)
    (hbk : strTruthy cfg.AWS_S3_BUCKET = true)
    (body : List Nat)
    (hs3 : env.s3Get cfg.AWS_S3_BUCKET req.s3_key = .ok body)
    (st : Nat) (text : String) (d : List (String × JVal))
    (hcr : env.createImport cfg.DROMO_SCHEMA_ID req.filename = .resp st text d)
    (hok : isSuccess st = true)
    (idv : JVal) (hid : jlookup d "id" = some idv) :
    (∀ k, uploadUrlKeys.find? (fun c => (jlookup d c).isSome) = some k →
      ∀ v, jlookup d k = some v → truthy v = true →
        ExtCall.dromoUpload v body ∈ (import_file cfg env req).2) ∧
    ((∀ k ∈ uploadUrlKeys, jlookup d k = none) →
      (import_file cfg env req).1 = .err 500
        ("Failed to start import: No upload URL found in Dromo response."
          ++ " Available keys: " ++ pyReprKeys (d.map Prod.fst))) := by
  constructor
  · intro k hfind v hkv htv
    have hprobe : probeUploadUrl d = some v := by
      rw [probeUploadUrl, hfind]
      exact hkv
    cases hup : env.uploadPut v body with
    | netError m =>
        simp [import_file, hlk, hak, hsk, hbk, hs3, hcr, hok, hid, hprobe,
          truthyOpt, htv, hup]
    | resp st2 text2 c2 =>
        by_cases h2 : isSuccess st2 = true <;>
          simp [import_file, hlk, hak, hsk, hbk, hs3, hcr, hok, hid, hprobe,
            truthyOpt, htv, hup, h2]
  · intro hnone
    have hfind : uploadUrlKeys.find? (fun c => (jlookup d c).isSome) = none := by
      rw [List.find?_eq_none]
      intro k hk
      simp [hnone k hk]
    have hprobe : probeUploadUrl d = none := by rw [probeUploadUrl, hfind]
    simp [import_file, hlk, hak, hsk, hbk, hs3, hcr, hok, hid, hprobe,
      truthyOpt]

/-- Witness for C5: in the happy-path environment the upload call receives
the value of `upload_url`, the first candidate key present. -/
theorem importFile_probes_first_key_or_enumerates_keys_witness :
    ExtCall.dromoUpload (.jstr "https://up.example/u") [1, 2, 3] ∈
      (import_file cfgDemo envDemo ⟨"in.csv", "f.csv"⟩).2 :=
  (importFile_probes_first_key_or_enumerates_keys cfgDemo envDemo
      ⟨"in.csv", "f.csv"⟩ rfl rfl rfl rfl [1, 2, 3] rfl 201 "created" _ rfl
      rfl (.jstr "job1") rfl).1 "upload_url" rfl
    (.jstr "https://up.example/u") rfl rfl

/-- Claim C6: for every request whose object-store read fails,
`POST /import-file` returns HTTP 500 with a message containing the
storage failure reason, and the create-import call is never made (the
trace holds only the S3 read). -/
theorem importFile_storage_failure_500_no_create
    (cfg : Config) (env : Env) (req : S3FileImportRequest)
    (hlk : strTruthy cfg.DROMO_LICENSE_KEY = true)
    (hak : strTruthy cfg.AWS_ACCESS_KEY = true)
    (hsk : strTruthy cfg.AWS_SECRET_KEY = true)
    (hbk : strTruthy cfg.AWS_S3_BUCKET = true)
    (m : String)
    (hs3 : env.s3Get cfg.AWS_S3_BUCKET req.s3_key = .botoError m) :
    (import_file cfg env req).1 =
      .err 500 ("Failed to start import: 500: Error reading from S3: " ++ m) ∧
    (import_file cfg env req).2 =
      [ExtCall.s3Get cfg.AWS_S3_BUCKET req.s3_key] ∧
    ∀ sid fn, ExtCall.dromoCreate sid fn ∉ (import_file cfg env req).2 := by
  have hdetail : "Failed to start import: "
      ++ httpExcStr 500 ("Error reading from S3: " ++ m)
      = "Failed to start import: 500: Error reading from S3: " ++ m := by
    simp only [httpExcStr, ← String.append_assoc]
    congr 1
  refine ⟨?_, ?_, ?_⟩ <;>
    simp [import_file, hlk, hak, hsk, hbk, hs3, hdetail]

/-- Witness for C6: a concrete failing read. -/
theorem importFile_storage_failure_500_no_create_witness :
    (import_file cfgDemo envS3Fail ⟨"missing.csv", "f.csv"⟩).1 =
      .err 500
        "Failed to start import: 500: Error reading from S3: key not found" ∧
    (import_file cfgDemo envS3Fail ⟨"missing.csv", "f.csv"⟩).2 =
      [ExtCall.s3Get (some "BKT") "missing.csv"] ∧
    ∀ sid fn, ExtCall.dromoCreate sid fn ∉
      (import_file cfgDemo envS3Fail ⟨"missing.csv", "f.csv"⟩).2 :=
  importFile_storage_failure_500_no_create cfgDemo envS3Fail
    ⟨"missing.csv", "f.csv"⟩ rfl rfl rfl rfl "key not found" rfl

/-- Claim C7: for every request where an import-service HTTP call (create
or upload) returns an error status, the `POST /import-file` error
response carries that upstream status code and its detail carries the
upstream response body (prefixed by `"Dromo API error: "`). -/
theorem importFile_mirrors_upstream_error
    (cfg : Config) (env : Env) (req : S3FileImportRequest)
    (hlk : strTruthy cfg.DROMO_LICENSE_KEY = true)
    (hak : strTruthy cfg.AWS_ACCESS_KEY = true)
    (hsk : strTruthy cfg.AWS_SECRET_KEY = true)
    (hbk : strTruthy cfg.AWS_S3_BUCKET = true)
    (body : List Nat)
    (hs3 : env.s3Get cfg.AWS_S3_BUCKET req.s3_key = .ok body) :
    (∀ st text d,
      env.createImport cfg.DROMO_SCHEMA_ID req.filename = .resp st text d →
      400 ≤ st →
      (import_file cfg env req).1 = .err st ("Dromo API error: " ++ text)) ∧
    (∀ st text d idv u st2 text2 c2,
      env.createImport cfg.DROMO_SCHEMA_ID req.filename = .resp st text d →
      isSuccess st = true → jlookup d "id" = some idv →
      probeUploadUrl d = some u → truthy u = true →
      env.uploadPut u body = .resp st2 text2 c2 → 400 ≤ st2 →
      (import_file cfg env req).1 =
        .err st2 ("Dromo API error: " ++ text2)) := by
  constructor
  · intro st text d hcr hge
    have hfail : isSuccess st = false := by
      simp only [isSuccess, Bool.and_eq_false_iff, decide_eq_false_iff_not,
        not_lt]
      omega
    simp [import_file, hlk, hak, hsk, hbk, hs3, hcr, hfail]
  · intro st text d idv u st2 text2 c2 hcr hok hid hprobe htu hup hge
    have hfail : isSuccess st2 = false := by
      simp only [isSuccess, Bool.and_eq_false_iff, decide_eq_false_iff_not,
        not_lt]
      omega
    simp [import_file, hlk, hak, hsk, hbk, hs3, hcr, hok, hid, hprobe,
      truthyOpt, htu, hup, hfail]

/-- Witness for C7: a create call answered with a 404 is mirrored. -/
theorem importFile_mirrors_upstream_error_witness :
    (import_file cfgDemo envCreate404 ⟨"in.csv", "f.csv"⟩).1 =
      .err 404 ("Dromo API error: " ++ "not found") :=
  (importFile_mirrors_upstream_error cfgDemo envCreate404
      ⟨"in.csv", "f.csv"⟩ rfl rfl rfl rfl [1, 2, 3] rfl).1
    404 "not found" [] rfl (by omega)

/-- Claim C8: for every request, if the service credential or any of the
object-store access key, secret or bucket name is missing (falsy),
`POST /import-file` fails with HTTP 500 and performs no external call at
all. -/
theorem importFile_missing_config_500_no_calls
    (cfg : Config) (env : Env) (req : S3FileImportRequest)
    (h : strTruthy cfg.DROMO_LICENSE_KEY = false ∨
         strTruthy cfg.AWS_ACCESS_KEY = false ∨
         strTruthy cfg.AWS_SECRET_KEY = false ∨
         strTruthy cfg.AWS_S3_BUCKET = false) :
    (∃ detail, (import_file cfg env req).1 = .err 500 detail) ∧
    (import_file cfg env req).2 = [] := by
  by_cases hlk : strTruthy cfg.DROMO_LICENSE_KEY = true
  · have haws : (strTruthy cfg.AWS_ACCESS_KEY && strTruthy cfg.AWS_SECRET_KEY
        && strTruthy cfg.AWS_S3_BUCKET) = false := by
      rcases h with h | h | h | h
      · exact absurd hlk (by simp [h])
      · simp [h]
      · simp [h]
      · simp [h]
    exact ⟨⟨"AWS credentials or S3 bucket not configured",
      by simp [import_file, hlk, haws]⟩, by simp [import_file, hlk, haws]⟩
  · have hlk' : strTruthy cfg.DROMO_LICENSE_KEY = false := by
      simpa using hlk
    exact ⟨⟨"Dromo license key not configured",
      by simp [import_file, hlk']⟩, by simp [import_file, hlk']⟩

/-- Witness for C8: a configuration with no license key. -/
theorem importFile_missing_config_500_no_calls_witness :
    (∃ detail,
      (import_file cfgNoKey envDemo ⟨"in.csv", "f.csv"⟩).1 =
        .err 500 detail) ∧
    (import_file cfgNoKey envDemo ⟨"in.csv", "f.csv"⟩).2 = [] :=
  importFile_missing_config_500_no_calls cfgNoKey envDemo
    ⟨"in.csv", "f.csv"⟩ (Or.inl rfl)

/-- Claim C9: for every webhook body with a truthy `data.id` and a status
that is neither `"SUCCESSFUL"` nor `"FAILED"` (including `"PENDING"`,
unrecognized values, or a missing status), `POST /webhook` performs no
external call and returns only the acknowledgement with that id and
status. -/
theorem webhook_other_status_only_ack
    (cfg : Config) (env : Env) (wd : List (String × JVal))
    (fields : List (String × JVal))
    (hdata : (jlookup wd "data").getD (.jobj []) = .jobj fields)
    (idv : JVal) (hid : jlookup fields "id" = some idv)
    (hty : truthy idv = true)
    (hns : jvalIsStr ((jlookup fields "status").getD .jnull) "SUCCESSFUL"
      = false)
    (_hnf : jvalIsStr ((jlookup fields "status").getD .jnull) "FAILED"
      = false) :
    webhook_handler cfg env wd =
      (.ok [("message", .jstr "Webhook processed successfully"),
            ("import_id", idv),
            ("status", (jlookup fields "status").getD .jnull)], []) := by
  simp [webhook_handler, hdata, hid, hty, hns]

/-- Witness for C9: a `PENDING` webhook performs no call. -/
theorem webhook_other_status_only_ack_witness :
    webhook_handler cfgDemo envDemo
        [("data", .jobj [("id", .jstr "job1"),
          ("status", .jstr "PENDING")])] =
      (.ok [("message", .jstr "Webhook processed successfully"),
            ("import_id", .jstr "job1"), ("status", .jstr "PENDING")], []) :=
  webhook_other_status_only_ack cfgDemo envDemo
    [("data", .jobj [("id", .jstr "job1"), ("status", .jstr "PENDING")])]
    [("id", .jstr "job1"), ("status", .jstr "PENDING")] rfl
    (.jstr "job1") rfl rfl rfl rfl

/-- Claim C10: if the first candidate key present in the create-import
response holds a falsy value, the request fails with the no-upload-URL
error even when a later candidate key holds a usable (truthy) value:
probing stops at the first present key. -/
theorem importFile_first_probed_key_falsy_fails
    (cfg : Config) (env : Env) (req : S3FileImportRequest)
    (hlk : strTruthy cfg.DROMO_LICENSE_KEY = true)
    (hak : strTruthy cfg.AWS_ACCESS_KEY = true)
    (hsk : strTruthy cfg.AWS_SECRET_KEY = true)
    (hbk : strTruthy cfg.AWS_S3_BUCKET = true)
    (body : List Nat)
    (hs3 : env.s3Get cfg.AWS_S3_BUCKET req.s3_key = .ok body)
    (st : Nat) (text : String) (d : List (String × JVal))
    (hcr : env.createImport cfg.DROMO_SCHEMA_ID req.filename = .resp st text d)
    (hok : isSuccess st = true)
    (idv : JVal) (hid : jlookup d "id" = some idv)
    (k : String)
    (hfind : uploadUrlKeys.find? (fun c => (jlookup d c).isSome) = some k)
    (v : JVal) (hkv : jlookup d k = some v) (hfalsy : truthy v = false)
    (k2 : String) (_hk2 : k2 ∈ uploadUrlKeys)
    (v2 : JVal) (_hv2 : jlookup d k2 = some v2)
    (_htv2 : truthy v2 = true) :
    (import_file cfg env req).1 = .err 500
      ("Failed to start import: No upload URL found in Dromo response."
        ++ " Available keys: " ++ pyReprKeys (d.map Prod.fst)) := by
  have hprobe : probeUploadUrl d = some v := by
    rw [probeUploadUrl, hfind]
    exact hkv
  simp [import_file, hlk, hak, hsk, hbk, hs3, hcr, hok, hid, hprobe,
    truthyOpt, hfalsy]

/-- Witness for C10: `upload_url` present but empty while `upload` holds a
usable URL; the request still fails with the no-upload-URL error. -/
theorem importFile_first_probed_key_falsy_fails_witness :
    (import_file cfgDemo envFalsyProbe ⟨"in.csv", "f.csv"⟩).1 = .err 500
      ("Failed to start import: No upload URL found in Dromo response."
        ++ " Available keys: "
        ++ pyReprKeys ["id", "upload_url", "upload"]) :=
  importFile_first_probed_key_falsy_fails cfgDemo envFalsyProbe
    ⟨"in.csv", "f.csv"⟩ rfl rfl rfl rfl [1, 2, 3] rfl 201 "created" _ rfl rfl
    (.jstr "job1") rfl "upload_url" rfl (.jstr "") rfl rfl
    "upload" (by decide) (.jstr "https://up.example/u") rfl rfl

end DromoDemo
